import Mathlib

/-- The BabyBear prime modulus, from `var MODULUS = new(big.Int).SetUint64(2013265921)`
in the babybear package. -/
def MODULUS : Nat := 2013265921

instance : NeZero MODULUS := ⟨by decide⟩

/-- Addition in the emulated BabyBear field: `Chip.Add` delegates to the emulated
field primitive, whose contract (range-checked modular arithmetic, §6 of the spec)
makes the produced value the canonical residue of the sum. -/
def AddF (a b : Nat) : Nat := (a + b) % MODULUS

/-- Subtraction in the emulated BabyBear field: `Chip.Sub`. -/
def SubF (a b : Nat) : Nat := (a + (MODULUS - b % MODULUS)) % MODULUS

/-- Multiplication in the emulated BabyBear field: `Chip.Mul`. -/
def MulF (a b : Nat) : Nat := (a * b) % MODULUS

/-- Multiplication by a small constant: `MulFConst` in the poseidon2 package. -/
def MulFConst (a c : Nat) : Nat := (a * c) % MODULUS

/-- Negation in the emulated BabyBear field: `Chip.Neg`. -/
def NegF (a : Nat) : Nat := (MODULUS - a % MODULUS) % MODULUS

/-- Modular inverse in the emulated BabyBear field: `Chip.Inv` delegates to the
emulated field primitive `field.Inverse` (spec §4.1: modular inverse, with an
unsatisfiable constraint system when the argument is zero). -/
def InvF (a : Nat) : Nat := ((a : ZMod MODULUS)⁻¹).val

/-- The constraint laid down for `Chip.Inv`: the returned value `r` must satisfy
`a * r = 1` in the field; for `a = 0` no `r` satisfies it, which is how the
circuit becomes unsatisfiable. Modelled from the spec: §4.1 `Inv(a)` and §7
`DivisionByZero` (the emulated-field primitive itself is an external
collaborator, specified at its interface). -/
def InvConstraint (a r : Nat) : Prop := MulF a r = 1

/-- Conditional select: `Chip.Select` returns `a` if the native boolean `cond`
is 1 and `b` otherwise. -/
def SelectF (cond a b : Nat) : Nat := if cond = 1 then a else b

/-- Zero test on a field value, used by `AssertNe` and `AssertNeExtension`:
`field.IsZero` returns the native boolean 1 if the value is zero and 0
otherwise. Modelled from the spec: §6 `isZero(emulated) -> bool` of the
Emulated Field Primitive interface. -/
def IsZeroF (a : Nat) : Nat := if a = 0 then 1 else 0

/-- Native-field boolean conjunction `api.And`, the product of two booleans.
Modelled from the spec: §6 Native Field Interface primitives. -/
def AndNative (x y : Nat) : Nat := x * y

/-- One bit of a native value as a 0/1 native-field value, as produced by
`api.ToBinary` (little-endian bit decomposition). -/
def BitVal (x i : Nat) : Nat := if x.testBit i then 1 else 0

/-- Chunk `k` (k = 0, 1, 2) computed by `Chip.SplitIntoBabyBear`: the loop sums
`bits[32*k + i] * 2^i` for `i < 32` (the running `power` doubles each step). -/
def SplitChunk (x k : Nat) : Nat := ∑ i in Finset.range 32, BitVal x (32 * k + i) * 2 ^ i

/-- `Chip.SplitIntoBabyBear`: decomposes a native value into three 32-bit chunks,
each handed to `field.NewElement` without any modular reduction. -/
def SplitIntoBabyBear (x : Nat) : Fin 3 → Nat := fun k => SplitChunk x k.val

/-- Coefficient vector of a degree-4 extension element (`ExtensionVariable`,
an ordered 4-tuple of BabyBear values). -/
abbrev ExtB := Fin 4 → Nat

/-- The zero extension element, as built by four `NewVariable(0)`. -/
def ZeroExt : ExtB := fun _ => 0

/-- The multiplicative identity (1, 0, 0, 0) of the extension. -/
def OneExt : ExtB := fun i => if i.val = 0 then 1 else 0

/-- A 4-tuple of canonical residues. -/
def CanonicalExt (a : ExtB) : Prop := ∀ i, a i < MODULUS

/-- The (i, j) index pairs visited by the nested loops of `Chip.MulExtension`,
in source order. -/
def MulExtensionPairs : List (Fin 4 × Fin 4) :=
  [(0, 0), (0, 1), (0, 2), (0, 3),
   (1, 0), (1, 1), (1, 2), (1, 3),
   (2, 0), (2, 1), (2, 2), (2, 3),
   (3, 0), (3, 1), (3, 2), (3, 3)]

/-- One iteration of the nested loops of `Chip.MulExtension`. The source reads
the factors from the accumulator `v` itself (`c.Mul(v[i], v[j])`), not from the
operands `a`, `b`; this embedding reproduces that faithfully. -/
def MulExtensionStep (v : Fin 4 → Nat) (ij : Fin 4 × Fin 4) : Fin 4 → Nat :=
  if h : ij.1.val + ij.2.val ≥ 4 then
    Function.update v ⟨ij.1.val + ij.2.val - 4, by have := ij.1.isLt; have := ij.2.isLt; omega⟩
      (AddF (v ⟨ij.1.val + ij.2.val - 4, by have := ij.1.isLt; have := ij.2.isLt; omega⟩)
        (MulF (MulF (v ij.1) (v ij.2)) 11))
  else
    Function.update v ⟨ij.1.val + ij.2.val, by omega⟩
      (AddF (v ⟨ij.1.val + ij.2.val, by omega⟩) (MulF (v ij.1) (v ij.2)))

/-- `Chip.MulExtension` as implemented: a zero-initialised accumulator `v`
updated over all 16 index pairs. The operands `a` and `b` appear in the
signature but are never read by the loop body. -/
def MulExtension (a b : ExtB) : ExtB :=
  MulExtensionPairs.foldl MulExtensionStep (fun _ => 0)

/-- Coefficient `t` of the 7-coefficient schoolbook convolution of two
4-coefficient vectors. -/
def ConvCoeff (a b : ExtB) (t : Nat) : Nat :=
  ∑ i : Fin 4, ∑ j : Fin 4, if i.val + j.val = t then a i * b j else 0

/-- Extension multiplication as the spec words it (§4.2 `Mul(a, b)`): the
schoolbook convolution with coefficients of degree ≥ 4 folded back into degree
k − 4 after multiplying by w = 11. Stated for comparison with `MulExtension`. -/
def MulExtensionSpec (a b : ExtB) : ExtB := fun k =>
  (ConvCoeff a b k.val + 11 * ConvCoeff a b (k.val + 4)) % MODULUS

/-- `Chip.InvExtension` as implemented: a zero-initialised vector `v` is
returned unchanged, whatever the argument. -/
def InvExtension (a : ExtB) : ExtB := fun _ => 0

/-- Satisfiability of the constraint laid down by `Chip.AssertNeExtension`: the
four coefficient-wise differences are zero-tested, the four booleans are
conjoined pairwise with `api.And`, and the conjunction is asserted equal to 0. -/
def AssertNeExtensionHolds (a b : ExtB) : Prop :=
  AndNative (AndNative (IsZeroF (SubF (a 0) (b 0))) (IsZeroF (SubF (a 1) (b 1))))
    (AndNative (IsZeroF (SubF (a 2) (b 2))) (IsZeroF (SubF (a 3) (b 3)))) = 0

/-- A 16-wide Poseidon2 permutation state of BabyBear values. -/
abbrev StateB := Fin 16 → Nat

/-- The fixed 4×4 linear map of `mdsLightPermutation4x4`, written exactly as the
source's addition/doubling sequence; all reads are of the pre-update block. -/
def Mds4 (s0 s1 s2 s3 : Nat) : Nat × Nat × Nat × Nat :=
  let t01 := AddF s0 s1
  let t23 := AddF s2 s3
  let t0123 := AddF t01 t23
  let t01123 := AddF t0123 s1
  let t01233 := AddF t0123 s3
  (AddF t01123 t01, AddF t01123 (MulFConst s2 2), AddF t01233 t23,
    AddF t01233 (MulFConst s0 2))

/-- `mdsLightPermutation4x4` applied to block `b` (state positions 4b..4b+3). -/
def Mds4At (s : StateB) (b : Fin 4) : Nat × Nat × Nat × Nat :=
  Mds4 (s ⟨4 * b.val, by have := b.isLt; omega⟩)
    (s ⟨4 * b.val + 1, by have := b.isLt; omega⟩)
    (s ⟨4 * b.val + 2, by have := b.isLt; omega⟩)
    (s ⟨4 * b.val + 3, by have := b.isLt; omega⟩)

/-- The per-block half of `externalLinearLayer`: each of the four consecutive
blocks of 4 is transformed by `mdsLightPermutation4x4`. -/
def MdsAll (s : StateB) : StateB := fun i =>
  let t := Mds4At s ⟨i.val / 4, by have := i.isLt; omega⟩
  match i.val % 4 with
  | 0 => t.1
  | 1 => t.2.1
  | 2 => t.2.2.1
  | _ => t.2.2.2

/-- The cross-block sums of `externalLinearLayer`: `sums[j]` starts from the
transformed `state[j]` and accumulates positions `4+j`, `8+j`, `12+j`. -/
def Sums4 (s : StateB) (j : Fin 4) : Nat :=
  AddF (AddF (AddF (s ⟨j.val, by have := j.isLt; omega⟩)
    (s ⟨j.val + 4, by have := j.isLt; omega⟩))
    (s ⟨j.val + 8, by have := j.isLt; omega⟩))
    (s ⟨j.val + 12, by have := j.isLt; omega⟩)

/-- `externalLinearLayer`: per-block 4×4 transform, then each element receives
the cross-block sum of its intra-block position. -/
def ExternalLinearLayer (s : StateB) : StateB := fun i =>
  AddF (MdsAll s i) (Sums4 (MdsAll s) ⟨i.val % 4, by omega⟩)

/-- The degree-7 S-box `sboxP`: four multiplications along the fixed chain
t², t⁴ = (t²)², t⁶ = t²·t⁴, t⁷ = t⁶·t. -/
def SboxP (x : Nat) : Nat :=
  let squared := MulF x x
  let x4 := MulF squared squared
  let x6 := MulF squared x4
  MulF x6 x

/-- `sbox`: the S-box applied to every one of the 16 state elements. -/
def Sbox (s : StateB) : StateB := fun i => SboxP (s i)

/-- `addRc`: elementwise addition of a 16-wide round-constant vector. -/
def AddRc (s : StateB) (rc : Fin 16 → Nat) : StateB := fun i => AddF (s i) (rc i)

/-- The fixed `internalLinearLayer` diagonal built by `NewPoseidon2BabyBearChip`:
p − 2 followed by 1, 2, 4, …, 8192, 32768. -/
def internalLinearLayer : Fin 16 → Nat :=
  ![2013265919, 1, 2, 4, 8, 16, 32, 64, 128, 256, 512, 1024, 2048, 4096, 8192, 32768]

/-- The diagonal that claim C5 describes: p − 2 followed by the successive
powers of two 2^0, 2^1, …, 2^14. Stated for comparison with the source's
`internalLinearLayer`. -/
def DiagClaimed : Fin 16 → Nat :=
  fun i => if i.val = 0 then MODULUS - 2 else 2 ^ (i.val - 1)

/-- The running total of `diffusionPermuteMut`: `sum` starts at `NewF("0")` and
accumulates all 16 state elements with `AddF`. -/
def DiffusionSum (s : StateB) : Nat := (List.ofFn s).foldl AddF 0

/-- `diffusionPermuteMut`: each element is multiplied by its diagonal entry and
then receives the pre-computed total. -/
def DiffusionPermuteMut (s : StateB) : StateB := fun i =>
  AddF (MulF (s i) (internalLinearLayer i)) (DiffusionSum s)

/-- One external round: add the round constants, apply the S-box to all 16
elements, apply the external linear layer. -/
def ExternalRound (rc : Fin 16 → Nat) (s : StateB) : StateB :=
  ExternalLinearLayer (Sbox (AddRc s rc))

/-- One internal round: add the round constant to element 0 only, apply the
S-box to element 0 only, apply the diffusion layer to the full state. -/
def InternalRound (rc0 : Nat) (s : StateB) : StateB :=
  DiffusionPermuteMut (Function.update s 0 (SboxP (AddF (s 0) rc0)))

/-- A round-constant table: row `r` is the 16-wide constant vector `RC16[r]`. -/
abbrev RCTable := Nat → Fin 16 → Nat

/-- `PermuteMut` as implemented in the source: the initial external linear
layer, then the body of the first-external-half loop for `r = 0` only — the
loop ends with `if r == 0 { break }`, and the internal-round phase and the
second external half are commented out. -/
def PermuteMut (RC : RCTable) (s : StateB) : StateB :=
  ExternalRound (RC 0) (ExternalLinearLayer s)

/-- The full Poseidon2-BabyBear transition sequence. Modelled from the spec:
§4.3 steps 1–4 (initial external linear layer, 4 external rounds, 13 internal
rounds using `RC16[r][0]`, 4 more external rounds); the round-constant table
`RC16` itself is repository code not present under src/, so it is left as a
parameter. This matches the commented-out remainder of `PermuteMut`. -/
def PermuteMutFull (RC : RCTable) (s : StateB) : StateB :=
  let s1 := ExternalLinearLayer s
  let s2 := (List.range 4).foldl (fun st r => ExternalRound (RC r) st) s1
  let s3 := (List.range 13).foldl (fun st r => InternalRound (RC (4 + r) 0) st) s2
  (List.range 4).foldl (fun st r => ExternalRound (RC (17 + r)) st) s3

/-- The all-zero round-constant table used to evaluate both permutation
variants on concrete states. -/
def RCZero : RCTable := fun _ _ => 0

/-- The unit state (1, 0, …, 0). -/
def UnitState : StateB := fun i => if i.val = 0 then 1 else 0

/-- The fixed input vector of `TestPoseidonBabyBear2`. -/
def KatInput : StateB :=
  ![894848333, 1437655012, 1200606629, 1690012884, 71131202, 1749206695,
    1717947831, 120589055, 19776022, 42382981, 1831865506, 724844064,
    171220207, 1299207443, 227047920, 1783754913]

/-- The expected output vector of `TestPoseidonBabyBear2` (the canonical
full-permutation known answer). -/
def KatExpected : StateB :=
  ![512585766, 975869435, 1921378527, 1238606951, 899635794, 132650430,
    1426417547, 1734425242, 57415409, 67173027, 1535042492, 1318033394,
    1070659233, 17258943, 856719028, 1500534995]

/-- One iteration of the 12-step loop in `Circuit.Define` of the generated
verifier circuit: `felt2 = felt1 + 0; felt1 = felt0 + felt1; felt0 = felt2 + 0`
on the pair (felt0, felt1). -/
def FibStep (st : Nat × Nat) : Nat × Nat :=
  let felt2 := AddF st.2 0
  let felt1 := AddF st.1 st.2
  let felt0 := AddF felt2 0
  (felt0, felt1)

/-- The pair (felt0, felt1) after `n` loop iterations, starting from
`NewVariable(0)`, `NewVariable(1)`. -/
def CircuitLoop (n : Nat) : Nat × Nat := FibStep^[n] (0, 1)

/-- The single assertion emitted by `Circuit.Define`:
`AssertEq(felt0, NewVariable(144))` right after the loop. The circuit inputs
X and Y are never used by the body. -/
def CircuitAssertHolds (X Y : Nat) : Prop := (CircuitLoop 12).1 = 144

/-- The value held by felt0 at the end of `Circuit.Define`, after the two
IsZero-driven Select pairs (`backend0 = IsZero(var0 - var0)`,
`backend1 = 1 - IsZero(var0 - var0)`). -/
def CircuitFinalFelt0 (X Y : Nat) : Nat :=
  let f := CircuitLoop 12
  let backend0 := IsZeroF (0 - 0)
  let felt0a := SelectF backend0 (AddF f.2 0) f.1
  let felt0b := SelectF backend0 (AddF felt0a f.2) felt0a
  let backend1 := 1 - IsZeroF (0 - 0)
  let felt0c := SelectF backend1 (AddF f.2 0) felt0b
  SelectF backend1 (AddF felt0c f.2) felt0c


instance (a r : Nat) : Decidable (InvConstraint a r) :=
  inferInstanceAs (Decidable (MulF a r = 1))

instance (a : ExtB) : Decidable (CanonicalExt a) :=
  inferInstanceAs (Decidable (∀ i, a i < MODULUS))

instance (a b : ExtB) : Decidable (AssertNeExtensionHolds a b) :=
  inferInstanceAs (Decidable (_ = 0))

instance (X Y : Nat) : Decidable (CircuitAssertHolds X Y) :=
  inferInstanceAs (Decidable ((CircuitLoop 12).1 = 144))

example : MulExtension OneExt OneExt = ZeroExt := by decide
example : MulExtensionSpec OneExt OneExt = OneExt := by decide
example : InvExtension OneExt = ZeroExt := by decide
example : CircuitAssertHolds 3 4 := by decide
example : CircuitFinalFelt0 3 4 = 466 := by decide
example : SplitChunk 4294967295 0 = 4294967295 := by decide
example : internalLinearLayer ≠ DiagClaimed := by decide
example : AssertNeExtensionHolds OneExt ZeroExt := by decide
example : ¬ AssertNeExtensionHolds OneExt OneExt := by decide

theorem lucasSqStep (a b : ZMod 2013265921) (k : Nat) (h : a ^ 2 = b) :
    a ^ (2 ^ (k + 1)) = b ^ (2 ^ k) := by
  rw [pow_succ', pow_mul, h]

theorem lucasChainMain : (440564289 : ZMod 2013265921) ^ (2 ^ 27) = 1 := by
  have c0 : (440564289 : ZMod 2013265921) ^ (2 ^ 27) = (975630072 : ZMod 2013265921) ^ (2 ^ 26) := lucasSqStep _ _ 26 (by decide)
  have c1 : (975630072 : ZMod 2013265921) ^ (2 ^ 26) = (1149491290 : ZMod 2013265921) ^ (2 ^ 25) := lucasSqStep _ _ 25 (by decide)
  have c2 : (1149491290 : ZMod 2013265921) ^ (2 ^ 25) = (1003846038 : ZMod 2013265921) ^ (2 ^ 24) := lucasSqStep _ _ 24 (by decide)
  have c3 : (1003846038 : ZMod 2013265921) ^ (2 ^ 24) = (1267047229 : ZMod 2013265921) ^ (2 ^ 23) := lucasSqStep _ _ 23 (by decide)
  have c4 : (1267047229 : ZMod 2013265921) ^ (2 ^ 23) = (570250684 : ZMod 2013265921) ^ (2 ^ 22) := lucasSqStep _ _ 22 (by decide)
  have c5 : (570250684 : ZMod 2013265921) ^ (2 ^ 22) = (414040701 : ZMod 2013265921) ^ (2 ^ 21) := lucasSqStep _ _ 21 (by decide)
  have c6 : (414040701 : ZMod 2013265921) ^ (2 ^ 21) = (195061667 : ZMod 2013265921) ^ (2 ^ 20) := lucasSqStep _ _ 20 (by decide)
  have c7 : (195061667 : ZMod 2013265921) ^ (2 ^ 20) = (1049899240 : ZMod 2013265921) ^ (2 ^ 19) := lucasSqStep _ _ 19 (by decide)
  have c8 : (1049899240 : ZMod 2013265921) ^ (2 ^ 19) = (1559589183 : ZMod 2013265921) ^ (2 ^ 18) := lucasSqStep _ _ 18 (by decide)
  have c9 : (1559589183 : ZMod 2013265921) ^ (2 ^ 18) = (1286330022 : ZMod 2013265921) ^ (2 ^ 17) := lucasSqStep _ _ 17 (by decide)
  have c10 : (1286330022 : ZMod 2013265921) ^ (2 ^ 17) = (1421947380 : ZMod 2013265921) ^ (2 ^ 16) := lucasSqStep _ _ 16 (by decide)
  have c11 : (1421947380 : ZMod 2013265921) ^ (2 ^ 16) = (2009781145 : ZMod 2013265921) ^ (2 ^ 15) := lucasSqStep _ _ 15 (by decide)
  have c12 : (2009781145 : ZMod 2013265921) ^ (2 ^ 15) = (1657000625 : ZMod 2013265921) ^ (2 ^ 14) := lucasSqStep _ _ 14 (by decide)
  have c13 : (1657000625 : ZMod 2013265921) ^ (2 ^ 14) = (298008106 : ZMod 2013265921) ^ (2 ^ 13) := lucasSqStep _ _ 13 (by decide)
  have c14 : (298008106 : ZMod 2013265921) ^ (2 ^ 13) = (1282623253 : ZMod 2013265921) ^ (2 ^ 12) := lucasSqStep _ _ 12 (by decide)
  have c15 : (1282623253 : ZMod 2013265921) ^ (2 ^ 12) = (1340477990 : ZMod 2013265921) ^ (2 ^ 11) := lucasSqStep _ _ 11 (by decide)
  have c16 : (1340477990 : ZMod 2013265921) ^ (2 ^ 11) = (341742893 : ZMod 2013265921) ^ (2 ^ 10) := lucasSqStep _ _ 10 (by decide)
  have c17 : (341742893 : ZMod 2013265921) ^ (2 ^ 10) = (1753498361 : ZMod 2013265921) ^ (2 ^ 9) := lucasSqStep _ _ 9 (by decide)
  have c18 : (1753498361 : ZMod 2013265921) ^ (2 ^ 9) = (1732600167 : ZMod 2013265921) ^ (2 ^ 8) := lucasSqStep _ _ 8 (by decide)
  have c19 : (1732600167 : ZMod 2013265921) ^ (2 ^ 8) = (397765732 : ZMod 2013265921) ^ (2 ^ 7) := lucasSqStep _ _ 7 (by decide)
  have c20 : (397765732 : ZMod 2013265921) ^ (2 ^ 7) = (1721589904 : ZMod 2013265921) ^ (2 ^ 6) := lucasSqStep _ _ 6 (by decide)
  have c21 : (1721589904 : ZMod 2013265921) ^ (2 ^ 6) = (760005850 : ZMod 2013265921) ^ (2 ^ 5) := lucasSqStep _ _ 5 (by decide)
  have c22 : (760005850 : ZMod 2013265921) ^ (2 ^ 5) = (196396260 : ZMod 2013265921) ^ (2 ^ 4) := lucasSqStep _ _ 4 (by decide)
  have c23 : (196396260 : ZMod 2013265921) ^ (2 ^ 4) = (1592366214 : ZMod 2013265921) ^ (2 ^ 3) := lucasSqStep _ _ 3 (by decide)
  have c24 : (1592366214 : ZMod 2013265921) ^ (2 ^ 3) = (1728404513 : ZMod 2013265921) ^ (2 ^ 2) := lucasSqStep _ _ 2 (by decide)
  have c25 : (1728404513 : ZMod 2013265921) ^ (2 ^ 2) = (2013265920 : ZMod 2013265921) ^ (2 ^ 1) := lucasSqStep _ _ 1 (by decide)
  have c26 : (2013265920 : ZMod 2013265921) ^ (2 ^ 1) = (1 : ZMod 2013265921) ^ (2 ^ 0) := lucasSqStep _ _ 0 (by decide)
  have cend : ((1 : ZMod 2013265921)) ^ (2 ^ 0) = 1 := by norm_num
  exact (c0.trans (c1.trans (c2.trans (c3.trans (c4.trans (c5.trans (c6.trans (c7.trans (c8.trans (c9.trans (c10.trans (c11.trans (c12.trans (c13.trans (c14.trans (c15.trans (c16.trans (c17.trans (c18.trans (c19.trans (c20.trans (c21.trans (c22.trans (c23.trans (c24.trans (c25.trans (c26))))))))))))))))))))))))))).trans cend

theorem lucasChainHalf : (440564289 : ZMod 2013265921) ^ (2 ^ 26) = 2013265920 := by
  have c0 : (440564289 : ZMod 2013265921) ^ (2 ^ 26) = (975630072 : ZMod 2013265921) ^ (2 ^ 25) := lucasSqStep _ _ 25 (by decide)
  have c1 : (975630072 : ZMod 2013265921) ^ (2 ^ 25) = (1149491290 : ZMod 2013265921) ^ (2 ^ 24) := lucasSqStep _ _ 24 (by decide)
  have c2 : (1149491290 : ZMod 2013265921) ^ (2 ^ 24) = (1003846038 : ZMod 2013265921) ^ (2 ^ 23) := lucasSqStep _ _ 23 (by decide)
  have c3 : (1003846038 : ZMod 2013265921) ^ (2 ^ 23) = (1267047229 : ZMod 2013265921) ^ (2 ^ 22) := lucasSqStep _ _ 22 (by decide)
  have c4 : (1267047229 : ZMod 2013265921) ^ (2 ^ 22) = (570250684 : ZMod 2013265921) ^ (2 ^ 21) := lucasSqStep _ _ 21 (by decide)
  have c5 : (570250684 : ZMod 2013265921) ^ (2 ^ 21) = (414040701 : ZMod 2013265921) ^ (2 ^ 20) := lucasSqStep _ _ 20 (by decide)
  have c6 : (414040701 : ZMod 2013265921) ^ (2 ^ 20) = (195061667 : ZMod 2013265921) ^ (2 ^ 19) := lucasSqStep _ _ 19 (by decide)
  have c7 : (195061667 : ZMod 2013265921) ^ (2 ^ 19) = (1049899240 : ZMod 2013265921) ^ (2 ^ 18) := lucasSqStep _ _ 18 (by decide)
  have c8 : (1049899240 : ZMod 2013265921) ^ (2 ^ 18) = (1559589183 : ZMod 2013265921) ^ (2 ^ 17) := lucasSqStep _ _ 17 (by decide)
  have c9 : (1559589183 : ZMod 2013265921) ^ (2 ^ 17) = (1286330022 : ZMod 2013265921) ^ (2 ^ 16) := lucasSqStep _ _ 16 (by decide)
  have c10 : (1286330022 : ZMod 2013265921) ^ (2 ^ 16) = (1421947380 : ZMod 2013265921) ^ (2 ^ 15) := lucasSqStep _ _ 15 (by decide)
  have c11 : (1421947380 : ZMod 2013265921) ^ (2 ^ 15) = (2009781145 : ZMod 2013265921) ^ (2 ^ 14) := lucasSqStep _ _ 14 (by decide)
  have c12 : (2009781145 : ZMod 2013265921) ^ (2 ^ 14) = (1657000625 : ZMod 2013265921) ^ (2 ^ 13) := lucasSqStep _ _ 13 (by decide)
  have c13 : (1657000625 : ZMod 2013265921) ^ (2 ^ 13) = (298008106 : ZMod 2013265921) ^ (2 ^ 12) := lucasSqStep _ _ 12 (by decide)
  have c14 : (298008106 : ZMod 2013265921) ^ (2 ^ 12) = (1282623253 : ZMod 2013265921) ^ (2 ^ 11) := lucasSqStep _ _ 11 (by decide)
  have c15 : (1282623253 : ZMod 2013265921) ^ (2 ^ 11) = (1340477990 : ZMod 2013265921) ^ (2 ^ 10) := lucasSqStep _ _ 10 (by decide)
  have c16 : (1340477990 : ZMod 2013265921) ^ (2 ^ 10) = (341742893 : ZMod 2013265921) ^ (2 ^ 9) := lucasSqStep _ _ 9 (by decide)
  have c17 : (341742893 : ZMod 2013265921) ^ (2 ^ 9) = (1753498361 : ZMod 2013265921) ^ (2 ^ 8) := lucasSqStep _ _ 8 (by decide)
  have c18 : (1753498361 : ZMod 2013265921) ^ (2 ^ 8) = (1732600167 : ZMod 2013265921) ^ (2 ^ 7) := lucasSqStep _ _ 7 (by decide)
  have c19 : (1732600167 : ZMod 2013265921) ^ (2 ^ 7) = (397765732 : ZMod 2013265921) ^ (2 ^ 6) := lucasSqStep _ _ 6 (by decide)
  have c20 : (397765732 : ZMod 2013265921) ^ (2 ^ 6) = (1721589904 : ZMod 2013265921) ^ (2 ^ 5) := lucasSqStep _ _ 5 (by decide)
  have c21 : (1721589904 : ZMod 2013265921) ^ (2 ^ 5) = (760005850 : ZMod 2013265921) ^ (2 ^ 4) := lucasSqStep _ _ 4 (by decide)
  have c22 : (760005850 : ZMod 2013265921) ^ (2 ^ 4) = (196396260 : ZMod 2013265921) ^ (2 ^ 3) := lucasSqStep _ _ 3 (by decide)
  have c23 : (196396260 : ZMod 2013265921) ^ (2 ^ 3) = (1592366214 : ZMod 2013265921) ^ (2 ^ 2) := lucasSqStep _ _ 2 (by decide)
  have c24 : (1592366214 : ZMod 2013265921) ^ (2 ^ 2) = (1728404513 : ZMod 2013265921) ^ (2 ^ 1) := lucasSqStep _ _ 1 (by decide)
  have c25 : (1728404513 : ZMod 2013265921) ^ (2 ^ 1) = (2013265920 : ZMod 2013265921) ^ (2 ^ 0) := lucasSqStep _ _ 0 (by decide)
  have cend : ((2013265920 : ZMod 2013265921)) ^ (2 ^ 0) = 2013265920 := by norm_num
  exact (c0.trans (c1.trans (c2.trans (c3.trans (c4.trans (c5.trans (c6.trans (c7.trans (c8.trans (c9.trans (c10.trans (c11.trans (c12.trans (c13.trans (c14.trans (c15.trans (c16.trans (c17.trans (c18.trans (c19.trans (c20.trans (c21.trans (c22.trans (c23.trans (c24.trans (c25)))))))))))))))))))))))))).trans cend

theorem lucasChainThird : (28629151 : ZMod 2013265921) ^ (2 ^ 27) = 1314723123 := by
  have c0 : (28629151 : ZMod 2013265921) ^ (2 ^ 27) = (1558084728 : ZMod 2013265921) ^ (2 ^ 26) := lucasSqStep _ _ 26 (by decide)
  have c1 : (1558084728 : ZMod 2013265921) ^ (2 ^ 26) = (1422208504 : ZMod 2013265921) ^ (2 ^ 25) := lucasSqStep _ _ 25 (by decide)
  have c2 : (1422208504 : ZMod 2013265921) ^ (2 ^ 25) = (1678705229 : ZMod 2013265921) ^ (2 ^ 24) := lucasSqStep _ _ 24 (by decide)
  have c3 : (1678705229 : ZMod 2013265921) ^ (2 ^ 24) = (1771892767 : ZMod 2013265921) ^ (2 ^ 23) := lucasSqStep _ _ 23 (by decide)
  have c4 : (1771892767 : ZMod 2013265921) ^ (2 ^ 23) = (940487245 : ZMod 2013265921) ^ (2 ^ 22) := lucasSqStep _ _ 22 (by decide)
  have c5 : (940487245 : ZMod 2013265921) ^ (2 ^ 22) = (1516982208 : ZMod 2013265921) ^ (2 ^ 21) := lucasSqStep _ _ 21 (by decide)
  have c6 : (1516982208 : ZMod 2013265921) ^ (2 ^ 21) = (792115306 : ZMod 2013265921) ^ (2 ^ 20) := lucasSqStep _ _ 20 (by decide)
  have c7 : (792115306 : ZMod 2013265921) ^ (2 ^ 20) = (452791590 : ZMod 2013265921) ^ (2 ^ 19) := lucasSqStep _ _ 19 (by decide)
  have c8 : (452791590 : ZMod 2013265921) ^ (2 ^ 19) = (1605829134 : ZMod 2013265921) ^ (2 ^ 18) := lucasSqStep _ _ 18 (by decide)
  have c9 : (1605829134 : ZMod 2013265921) ^ (2 ^ 18) = (2008025366 : ZMod 2013265921) ^ (2 ^ 17) := lucasSqStep _ _ 17 (by decide)
  have c10 : (2008025366 : ZMod 2013265921) ^ (2 ^ 17) = (456279664 : ZMod 2013265921) ^ (2 ^ 16) := lucasSqStep _ _ 16 (by decide)
  have c11 : (456279664 : ZMod 2013265921) ^ (2 ^ 16) = (1492617483 : ZMod 2013265921) ^ (2 ^ 15) := lucasSqStep _ _ 15 (by decide)
  have c12 : (1492617483 : ZMod 2013265921) ^ (2 ^ 15) = (1252078097 : ZMod 2013265921) ^ (2 ^ 14) := lucasSqStep _ _ 14 (by decide)
  have c13 : (1252078097 : ZMod 2013265921) ^ (2 ^ 14) = (12770214 : ZMod 2013265921) ^ (2 ^ 13) := lucasSqStep _ _ 13 (by decide)
  have c14 : (12770214 : ZMod 2013265921) ^ (2 ^ 13) = (1812738875 : ZMod 2013265921) ^ (2 ^ 12) := lucasSqStep _ _ 12 (by decide)
  have c15 : (1812738875 : ZMod 2013265921) ^ (2 ^ 12) = (1048536409 : ZMod 2013265921) ^ (2 ^ 11) := lucasSqStep _ _ 11 (by decide)
  have c16 : (1048536409 : ZMod 2013265921) ^ (2 ^ 11) = (434152628 : ZMod 2013265921) ^ (2 ^ 10) := lucasSqStep _ _ 10 (by decide)
  have c17 : (434152628 : ZMod 2013265921) ^ (2 ^ 10) = (1734511292 : ZMod 2013265921) ^ (2 ^ 9) := lucasSqStep _ _ 9 (by decide)
  have c18 : (1734511292 : ZMod 2013265921) ^ (2 ^ 9) = (839726776 : ZMod 2013265921) ^ (2 ^ 8) := lucasSqStep _ _ 8 (by decide)
  have c19 : (839726776 : ZMod 2013265921) ^ (2 ^ 8) = (629262984 : ZMod 2013265921) ^ (2 ^ 7) := lucasSqStep _ _ 7 (by decide)
  have c20 : (629262984 : ZMod 2013265921) ^ (2 ^ 7) = (1502726565 : ZMod 2013265921) ^ (2 ^ 6) := lucasSqStep _ _ 6 (by decide)
  have c21 : (1502726565 : ZMod 2013265921) ^ (2 ^ 6) = (48459945 : ZMod 2013265921) ^ (2 ^ 5) := lucasSqStep _ _ 5 (by decide)
  have c22 : (48459945 : ZMod 2013265921) ^ (2 ^ 5) = (288916259 : ZMod 2013265921) ^ (2 ^ 4) := lucasSqStep _ _ 4 (by decide)
  have c23 : (288916259 : ZMod 2013265921) ^ (2 ^ 4) = (503591070 : ZMod 2013265921) ^ (2 ^ 3) := lucasSqStep _ _ 3 (by decide)
  have c24 : (503591070 : ZMod 2013265921) ^ (2 ^ 3) = (782862608 : ZMod 2013265921) ^ (2 ^ 2) := lucasSqStep _ _ 2 (by decide)
  have c25 : (782862608 : ZMod 2013265921) ^ (2 ^ 2) = (1314723124 : ZMod 2013265921) ^ (2 ^ 1) := lucasSqStep _ _ 1 (by decide)
  have c26 : (1314723124 : ZMod 2013265921) ^ (2 ^ 1) = (1314723123 : ZMod 2013265921) ^ (2 ^ 0) := lucasSqStep _ _ 0 (by decide)
  have cend : ((1314723123 : ZMod 2013265921)) ^ (2 ^ 0) = 1314723123 := by norm_num
  exact (c0.trans (c1.trans (c2.trans (c3.trans (c4.trans (c5.trans (c6.trans (c7.trans (c8.trans (c9.trans (c10.trans (c11.trans (c12.trans (c13.trans (c14.trans (c15.trans (c16.trans (c17.trans (c18.trans (c19.trans (c20.trans (c21.trans (c22.trans (c23.trans (c24.trans (c25.trans (c26))))))))))))))))))))))))))).trans cend

theorem lucasChainFifth : (29791 : ZMod 2013265921) ^ (2 ^ 27) = 645581151 := by
  have c0 : (29791 : ZMod 2013265921) ^ (2 ^ 27) = (887503681 : ZMod 2013265921) ^ (2 ^ 26) := lucasSqStep _ _ 26 (by decide)
  have c1 : (887503681 : ZMod 2013265921) ^ (2 ^ 26) = (1462844305 : ZMod 2013265921) ^ (2 ^ 25) := lucasSqStep _ _ 25 (by decide)
  have c2 : (1462844305 : ZMod 2013265921) ^ (2 ^ 25) = (839089552 : ZMod 2013265921) ^ (2 ^ 24) := lucasSqStep _ _ 24 (by decide)
  have c3 : (839089552 : ZMod 2013265921) ^ (2 ^ 24) = (1646113519 : ZMod 2013265921) ^ (2 ^ 23) := lucasSqStep _ _ 23 (by decide)
  have c4 : (1646113519 : ZMod 2013265921) ^ (2 ^ 23) = (989735200 : ZMod 2013265921) ^ (2 ^ 22) := lucasSqStep _ _ 22 (by decide)
  have c5 : (989735200 : ZMod 2013265921) ^ (2 ^ 22) = (354087134 : ZMod 2013265921) ^ (2 ^ 21) := lucasSqStep _ _ 21 (by decide)
  have c6 : (354087134 : ZMod 2013265921) ^ (2 ^ 21) = (939704260 : ZMod 2013265921) ^ (2 ^ 20) := lucasSqStep _ _ 20 (by decide)
  have c7 : (939704260 : ZMod 2013265921) ^ (2 ^ 20) = (210852613 : ZMod 2013265921) ^ (2 ^ 19) := lucasSqStep _ _ 19 (by decide)
  have c8 : (210852613 : ZMod 2013265921) ^ (2 ^ 19) = (1924503713 : ZMod 2013265921) ^ (2 ^ 18) := lucasSqStep _ _ 18 (by decide)
  have c9 : (1924503713 : ZMod 2013265921) ^ (2 ^ 18) = (620932417 : ZMod 2013265921) ^ (2 ^ 17) := lucasSqStep _ _ 17 (by decide)
  have c10 : (620932417 : ZMod 2013265921) ^ (2 ^ 17) = (953858903 : ZMod 2013265921) ^ (2 ^ 16) := lucasSqStep _ _ 16 (by decide)
  have c11 : (953858903 : ZMod 2013265921) ^ (2 ^ 16) = (911499372 : ZMod 2013265921) ^ (2 ^ 15) := lucasSqStep _ _ 15 (by decide)
  have c12 : (911499372 : ZMod 2013265921) ^ (2 ^ 15) = (1788359951 : ZMod 2013265921) ^ (2 ^ 14) := lucasSqStep _ _ 14 (by decide)
  have c13 : (1788359951 : ZMod 2013265921) ^ (2 ^ 14) = (1109355884 : ZMod 2013265921) ^ (2 ^ 13) := lucasSqStep _ _ 13 (by decide)
  have c14 : (1109355884 : ZMod 2013265921) ^ (2 ^ 13) = (712883858 : ZMod 2013265921) ^ (2 ^ 12) := lucasSqStep _ _ 12 (by decide)
  have c15 : (712883858 : ZMod 2013265921) ^ (2 ^ 12) = (1634029288 : ZMod 2013265921) ^ (2 ^ 11) := lucasSqStep _ _ 11 (by decide)
  have c16 : (1634029288 : ZMod 2013265921) ^ (2 ^ 11) = (475368472 : ZMod 2013265921) ^ (2 ^ 10) := lucasSqStep _ _ 10 (by decide)
  have c17 : (475368472 : ZMod 2013265921) ^ (2 ^ 10) = (233410736 : ZMod 2013265921) ^ (2 ^ 9) := lucasSqStep _ _ 9 (by decide)
  have c18 : (233410736 : ZMod 2013265921) ^ (2 ^ 9) = (1351192264 : ZMod 2013265921) ^ (2 ^ 8) := lucasSqStep _ _ 8 (by decide)
  have c19 : (1351192264 : ZMod 2013265921) ^ (2 ^ 8) = (1537548338 : ZMod 2013265921) ^ (2 ^ 7) := lucasSqStep _ _ 7 (by decide)
  have c20 : (1537548338 : ZMod 2013265921) ^ (2 ^ 7) = (981668758 : ZMod 2013265921) ^ (2 ^ 6) := lucasSqStep _ _ 6 (by decide)
  have c21 : (981668758 : ZMod 2013265921) ^ (2 ^ 6) = (410767134 : ZMod 2013265921) ^ (2 ^ 5) := lucasSqStep _ _ 5 (by decide)
  have c22 : (410767134 : ZMod 2013265921) ^ (2 ^ 5) = (1902556399 : ZMod 2013265921) ^ (2 ^ 4) := lucasSqStep _ _ 4 (by decide)
  have c23 : (1902556399 : ZMod 2013265921) ^ (2 ^ 4) = (422226006 : ZMod 2013265921) ^ (2 ^ 3) := lucasSqStep _ _ 3 (by decide)
  have c24 : (422226006 : ZMod 2013265921) ^ (2 ^ 3) = (161600065 : ZMod 2013265921) ^ (2 ^ 2) := lucasSqStep _ _ 2 (by decide)
  have c25 : (161600065 : ZMod 2013265921) ^ (2 ^ 2) = (1403701133 : ZMod 2013265921) ^ (2 ^ 1) := lucasSqStep _ _ 1 (by decide)
  have c26 : (1403701133 : ZMod 2013265921) ^ (2 ^ 1) = (645581151 : ZMod 2013265921) ^ (2 ^ 0) := lucasSqStep _ _ 0 (by decide)
  have cend : ((645581151 : ZMod 2013265921)) ^ (2 ^ 0) = 645581151 := by norm_num
  exact (c0.trans (c1.trans (c2.trans (c3.trans (c4.trans (c5.trans (c6.trans (c7.trans (c8.trans (c9.trans (c10.trans (c11.trans (c12.trans (c13.trans (c14.trans (c15.trans (c16.trans (c17.trans (c18.trans (c19.trans (c20.trans (c21.trans (c22.trans (c23.trans (c24.trans (c25.trans (c26))))))))))))))))))))))))))).trans cend


theorem primeDivisorsOfTotient (q : Nat) (hq : Nat.Prime q) (hdvd : q ∣ 2013265920) :
    q = 2 ∨ q = 3 ∨ q = 5 := by
  have h1 : (2013265920 : Nat) = 2 ^ 27 * 15 := by norm_num
  rw [h1] at hdvd
  rcases (Nat.Prime.dvd_mul hq).mp hdvd with h2 | h15
  · have hq2 : q ∣ 2 := hq.dvd_of_dvd_pow h2
    rcases Nat.prime_two.eq_one_or_self_of_dvd q hq2 with h | h
    · exact absurd h hq.ne_one
    · exact Or.inl h
  · right
    have hle : q ≤ 15 := Nat.le_of_dvd (by norm_num) h15
    have h2le : 2 ≤ q := hq.two_le
    interval_cases q
    all_goals first
      | decide
      | (exfalso; revert h15; decide)
      | (exfalso; exact absurd hq (by norm_num))

theorem babyBearPrime : Nat.Prime 2013265921 := by
  refine lucas_primality 2013265921 31 ?_ ?_
  · have hs : (2013265921 : Nat) - 1 = 15 * 2 ^ 27 := by norm_num
    rw [hs, pow_mul]
    have h15 : (31 : ZMod 2013265921) ^ 15 = 440564289 := by decide
    rw [h15]
    exact lucasChainMain
  · intro q hq hdvd
    have hs : (2013265921 : Nat) - 1 = 2013265920 := rfl
    rw [hs] at hdvd ⊢
    rcases primeDivisorsOfTotient q hq hdvd with h | h | h <;> subst h
    · have he : (2013265920 : Nat) / 2 = 15 * 2 ^ 26 := by norm_num
      rw [he, pow_mul]
      have h15 : (31 : ZMod 2013265921) ^ 15 = 440564289 := by decide
      rw [h15, lucasChainHalf]
      decide
    · have he : (2013265920 : Nat) / 3 = 5 * 2 ^ 27 := by norm_num
      rw [he, pow_mul]
      have h5 : (31 : ZMod 2013265921) ^ 5 = 28629151 := by decide
      rw [h5, lucasChainThird]
      decide
    · have he : (2013265920 : Nat) / 5 = 3 * 2 ^ 27 := by norm_num
      rw [he, pow_mul]
      have h3 : (31 : ZMod 2013265921) ^ 3 = 29791 := by decide
      rw [h3, lucasChainFifth]
      decide

/-- Evaluation of the full spec permutation, with the all-zero constant table,
on the unit state: one round at a time, innermost first. -/
theorem PermuteMutFullUnitEval : PermuteMutFull RCZero UnitState =
    ![578806511, 419927851, 1413264627, 1389819721, 1398412472, 679316140, 264661970, 976407975, 1485071144, 466010048, 305897097, 674205304, 1652848663, 941346787, 739758114, 1402535602] := by
  have h0 : ExternalLinearLayer UnitState =
      ![4, 2, 2, 6, 2, 1, 1, 3, 2, 1, 1, 3, 2, 1, 1, 3] := by decide
  have h1 : ExternalRound (RCZero 0) (![4, 2, 2, 6, 2, 1, 1, 3, 2, 1, 1, 3, 2, 1, 1, 3]) =
      ![633773, 600880, 1733228, 1232840, 323004, 306240, 883344, 628320, 323004, 306240, 883344, 628320, 323004, 306240, 883344, 628320] := by decide
  have h2 : ExternalRound (RCZero 1) (![633773, 600880, 1733228, 1232840, 323004, 306240, 883344, 628320, 323004, 306240, 883344, 628320, 323004, 306240, 883344, 628320]) =
      ![1116221010, 331839710, 269727476, 193552306, 1306288980, 1295157743, 283486962, 1728150635, 1306288980, 1295157743, 283486962, 1728150635, 1306288980, 1295157743, 283486962, 1728150635] := by decide
  have h3 : ExternalRound (RCZero 2) (![1116221010, 331839710, 269727476, 193552306, 1306288980, 1295157743, 283486962, 1728150635, 1306288980, 1295157743, 283486962, 1728150635, 1306288980, 1295157743, 283486962, 1728150635]) =
      ![1249720931, 12887111, 1047032143, 828925326, 128640662, 1167824664, 1095559842, 739423565, 128640662, 1167824664, 1095559842, 739423565, 128640662, 1167824664, 1095559842, 739423565] := by decide
  have h4 : ExternalRound (RCZero 3) (![1249720931, 12887111, 1047032143, 828925326, 128640662, 1167824664, 1095559842, 739423565, 128640662, 1167824664, 1095559842, 739423565, 128640662, 1167824664, 1095559842, 739423565]) =
      ![1977916208, 1057511730, 533980918, 1281952538, 373111624, 830541769, 199043712, 693174566, 373111624, 830541769, 199043712, 693174566, 373111624, 830541769, 199043712, 693174566] := by decide
  have h5 : InternalRound (RCZero 4 0) (![1977916208, 1057511730, 533980918, 1281952538, 373111624, 830541769, 199043712, 693174566, 373111624, 830541769, 199043712, 693174566, 373111624, 830541769, 199043712, 693174566]) =
      ![1940557948, 1332946812, 1343396918, 1376713392, 1247062153, 1484507860, 605036103, 346757044, 1728606771, 1501206241, 1522519576, 1416586474, 1380256975, 1768380337, 96127776, 553493048] := by decide
  have h6 : InternalRound (RCZero 5 0) (![1940557948, 1332946812, 1343396918, 1376713392, 1247062153, 1484507860, 605036103, 346757044, 1728606771, 1501206241, 1522519576, 1416586474, 1380256975, 1768380337, 96127776, 553493048]) =
      ![578150598, 1936470517, 1277051620, 70579510, 513691324, 196458413, 1845285712, 650049390, 405939083, 378530490, 999635190, 1636609961, 744455421, 158600299, 895289586, 1964304201] := by decide
  have h7 : InternalRound (RCZero 6 0) (![578150598, 1936470517, 1277051620, 70579510, 513691324, 196458413, 1845285712, 650049390, 405939083, 378530490, 999635190, 1636609961, 744455421, 158600299, 895289586, 1964304201]) =
      ![1263547510, 1846367468, 450734270, 192214991, 2006161622, 1039965638, 574328026, 1247739491, 1538451550, 176938183, 353570297, 761250743, 512296962, 1265095093, 1807701181, 105195028] := by decide
  have h8 : InternalRound (RCZero 7 0) (![1263547510, 1846367468, 450734270, 192214991, 2006161622, 1039965638, 574328026, 1247739491, 1538451550, 176938183, 353570297, 761250743, 512296962, 1265095093, 1807701181, 105195028]) =
      ![131187468, 1285478192, 340579264, 207970688, 1395542253, 1985699485, 1711480188, 777067229, 1074114787, 443435310, 1286435819, 1839226050, 1725009980, 1135396919, 556336521, 1771797397] := by decide
  have h9 : InternalRound (RCZero 8 0) (![131187468, 1285478192, 340579264, 207970688, 1395542253, 1985699485, 1711480188, 777067229, 1074114787, 443435310, 1286435819, 1839226050, 1725009980, 1135396919, 556336521, 1771797397]) =
      ![1601275488, 529822211, 1938768468, 76226771, 342352438, 816546964, 1666796089, 658264571, 1842220048, 20891803, 1574793101, 208183084, 796357625, 1199112654, 732344828, 952085038] := by decide
  have h10 : InternalRound (RCZero 9 0) (![1601275488, 529822211, 1938768468, 76226771, 342352438, 816546964, 1666796089, 658264571, 1842220048, 20891803, 1574793101, 208183084, 796357625, 1199112654, 732344828, 952085038]) =
      ![505752020, 561144604, 1895593408, 336229477, 756875976, 1016478291, 1023883295, 1894936517, 283375780, 1353092119, 1019021705, 1817878704, 226342383, 1241171858, 1880974710, 385135761] := by decide
  have h11 : InternalRound (RCZero 10 0) (![505752020, 561144604, 1895593408, 336229477, 756875976, 1016478291, 1023883295, 1894936517, 283375780, 1353092119, 1019021705, 1817878704, 226342383, 1241171858, 1880974710, 385135761]) =
      ![782240723, 964184242, 167694612, 1747957546, 418249683, 560564926, 955050342, 883021466, 436352900, 512883690, 706279059, 1653121530, 901078192, 746519481, 1823770545, 1380863258] := by decide
  have h12 : InternalRound (RCZero 11 0) (![782240723, 964184242, 167694612, 1747957546, 418249683, 560564926, 955050342, 883021466, 436352900, 512883690, 706279059, 1653121530, 901078192, 746519481, 1823770545, 1380863258]) =
      ![1300130003, 1206780210, 577985192, 1194628389, 1575327511, 1158571100, 605218097, 384524004, 1737587301, 678535743, 1482874317, 1895669048, 1499149548, 1848722066, 124500867, 218259637] := by decide
  have h13 : InternalRound (RCZero 12 0) (![1300130003, 1206780210, 577985192, 1194628389, 1575327511, 1158571100, 605218097, 384524004, 1737587301, 678535743, 1482874317, 1895669048, 1499149548, 1848722066, 124500867, 218259637]) =
      ![713975720, 657215814, 606405988, 202417318, 1986726087, 1881445836, 698021419, 1914046729, 402358822, 14716606, 1694099612, 1840458833, 1491446304, 1936154980, 648982042, 261669428] := by decide
  have h14 : InternalRound (RCZero 13 0) (![713975720, 657215814, 606405988, 202417318, 1986726087, 1881445836, 698021419, 1914046729, 402358822, 14716606, 1694099612, 1840458833, 1491446304, 1936154980, 648982042, 261669428]) =
      ![306038778, 611253936, 1166850098, 763707394, 1754985371, 1871448604, 144798399, 1657073518, 1124319313, 1708223337, 1628693436, 166981058, 311666557, 190373383, 1392894746, 1851563208] := by decide
  have h15 : InternalRound (RCZero 14 0) (![306038778, 611253936, 1166850098, 763707394, 1754985371, 1871448604, 144798399, 1657073518, 1124319313, 1708223337, 1628693436, 166981058, 311666557, 190373383, 1392894746, 1851563208]) =
      ![281498804, 807165112, 516345451, 1237474831, 142932697, 1953365946, 802928102, 1558788436, 1166902849, 622380591, 594859114, 56911283, 283722955, 831376517, 1611696101, 437315664] := by decide
  have h16 : InternalRound (RCZero 15 0) (![281498804, 807165112, 516345451, 1237474831, 142932697, 1953365946, 802928102, 1558788436, 1166902849, 622380591, 594859114, 56911283, 283722955, 831376517, 1611696101, 437315664]) =
      ![925973734, 970331624, 1195857414, 1086533994, 1306628088, 1218032833, 1697674724, 1275596287, 545053030, 444590049, 727878809, 55608595, 1407193104, 1048707733, 179715986, 1709284707] := by decide
  have h17 : InternalRound (RCZero 16 0) (![925973734, 970331624, 1195857414, 1086533994, 1306628088, 1218032833, 1697674724, 1275596287, 545053030, 444590049, 727878809, 55608595, 1407193104, 1048707733, 179715986, 1709284707]) =
      ![1943603267, 578379417, 1999762621, 1940917848, 2008008813, 977179832, 1588725015, 715573321, 923794319, 680208761, 1841068537, 179803285, 555991834, 818712668, 144016854, 391404549] := by decide
  have h18 : ExternalRound (RCZero 17) (![1943603267, 578379417, 1999762621, 1940917848, 2008008813, 977179832, 1588725015, 715573321, 923794319, 680208761, 1841068537, 179803285, 555991834, 818712668, 144016854, 391404549]) =
      ![862727928, 1210122028, 960741731, 179063986, 1311022626, 646443171, 17565775, 839885146, 924860097, 1098778448, 1497890081, 1804968851, 855975351, 825668511, 61874394, 1835599238] := by decide
  have h19 : ExternalRound (RCZero 18) (![862727928, 1210122028, 960741731, 179063986, 1311022626, 646443171, 17565775, 839885146, 924860097, 1098778448, 1497890081, 1804968851, 855975351, 825668511, 61874394, 1835599238]) =
      ![696552356, 581994513, 496371848, 230393837, 75274550, 324851817, 593724676, 1593182743, 1284053584, 1595836378, 1682716448, 1701899225, 209680093, 795805226, 1807255558, 1176809099] := by decide
  have h20 : ExternalRound (RCZero 19) (![696552356, 581994513, 496371848, 230393837, 75274550, 324851817, 593724676, 1593182743, 1284053584, 1595836378, 1682716448, 1701899225, 209680093, 795805226, 1807255558, 1176809099]) =
      ![1313825666, 1918960023, 1253502842, 1803075074, 127829697, 276315182, 612476605, 1675402351, 415476958, 1928008379, 291691800, 1379770487, 312027213, 718162617, 791468403, 1852043507] := by decide
  have h21 : ExternalRound (RCZero 20) (![1313825666, 1918960023, 1253502842, 1803075074, 127829697, 276315182, 612476605, 1675402351, 415476958, 1928008379, 291691800, 1379770487, 312027213, 718162617, 791468403, 1852043507]) =
      ![578806511, 419927851, 1413264627, 1389819721, 1398412472, 679316140, 264661970, 976407975, 1485071144, 466010048, 305897097, 674205304, 1652848663, 941346787, 739758114, 1402535602] := by decide
  show ExternalRound (RCZero 20) (ExternalRound (RCZero 19) (ExternalRound (RCZero 18) (ExternalRound (RCZero 17) (InternalRound (RCZero 16 0) (InternalRound (RCZero 15 0) (InternalRound (RCZero 14 0) (InternalRound (RCZero 13 0) (InternalRound (RCZero 12 0) (InternalRound (RCZero 11 0) (InternalRound (RCZero 10 0) (InternalRound (RCZero 9 0) (InternalRound (RCZero 8 0) (InternalRound (RCZero 7 0) (InternalRound (RCZero 6 0) (InternalRound (RCZero 5 0) (InternalRound (RCZero 4 0) (ExternalRound (RCZero 3) (ExternalRound (RCZero 2) (ExternalRound (RCZero 1) (ExternalRound (RCZero 0) (ExternalLinearLayer UnitState))))))))))))))))))))) = _
  rw [h0, h1, h2, h3, h4, h5, h6, h7, h8, h9, h10, h11, h12, h13, h14, h15, h16, h17, h18, h19, h20, h21]

/-- Evaluation of the full spec permutation, with the all-zero constant table,
on the known-answer input vector: one round at a time, innermost first. -/
theorem PermuteMutFullKatEval : PermuteMutFull RCZero KatInput =
    ![1363749488, 318277635, 944046745, 277612888, 64736600, 1018472304, 31427269, 1357276207, 622564047, 123884952, 562079784, 1552977394, 357736896, 380784081, 265465820, 1766199799] := by
  have h0 : ExternalLinearLayer KatInput =
      ![1977003202, 275423229, 149669171, 119092734, 212141362, 57409241, 2003712403, 1377784331, 1746930307, 1564946509, 272867965, 839322770, 1247853484, 474497709, 1648233987, 1050217978] := by decide
  have h1 : ExternalRound (RCZero 0) (![1977003202, 275423229, 149669171, 119092734, 212141362, 57409241, 2003712403, 1377784331, 1746930307, 1564946509, 272867965, 839322770, 1247853484, 474497709, 1648233987, 1050217978]) =
      ![628483073, 988702934, 1560596998, 662103143, 968529136, 817691159, 209812861, 1100009973, 235261902, 992803929, 1463323132, 1168011867, 1928054403, 1286910598, 888649734, 183824299] := by decide
  have h2 : ExternalRound (RCZero 1) (![628483073, 988702934, 1560596998, 662103143, 968529136, 817691159, 209812861, 1100009973, 235261902, 992803929, 1463323132, 1168011867, 1928054403, 1286910598, 888649734, 183824299]) =
      ![1703974750, 1880053188, 1131975570, 1048287701, 380680509, 405744204, 730903473, 607643568, 190907195, 305934967, 917883346, 1547066586, 1589112182, 965540774, 62453685, 1043668409] := by decide
  have h3 : ExternalRound (RCZero 2) (![1703974750, 1880053188, 1131975570, 1048287701, 380680509, 405744204, 730903473, 607643568, 190907195, 305934967, 917883346, 1547066586, 1589112182, 965540774, 62453685, 1043668409]) =
      ![272732169, 1195233230, 1793063188, 698231420, 1890729242, 1945500598, 318234157, 799604453, 800950603, 744387005, 1105502360, 581689019, 871350654, 391833430, 2006407524, 526936419] := by decide
  have h4 : ExternalRound (RCZero 3) (![272732169, 1195233230, 1793063188, 698231420, 1890729242, 1945500598, 318234157, 799604453, 800950603, 744387005, 1105502360, 581689019, 871350654, 391833430, 2006407524, 526936419]) =
      ![464504432, 305294971, 446854451, 213004055, 700838319, 1555095146, 280446860, 1223866538, 982894658, 95294182, 1818286159, 61310550, 286158439, 1142653855, 1556048209, 1781809454] := by decide
  have h5 : InternalRound (RCZero 4 0) (![464504432, 305294971, 446854451, 213004055, 700838319, 1555095146, 280446860, 1223866538, 982894658, 95294182, 1818286159, 61310550, 286158439, 1142653855, 1556048209, 1781809454]) =
      ![1239299786, 1819781746, 394929756, 353237074, 1081395564, 223552138, 422456690, 1324574288, 489249976, 1750606315, 334878760, 1885246424, 1706586836, 981410530, 661603131, 1121700526] := by decide
  have h6 : InternalRound (RCZero 5 0) (![1239299786, 1819781746, 394929756, 353237074, 1081395564, 223552138, 422456690, 1324574288, 489249976, 1750606315, 334878760, 1885246424, 1706586836, 981410530, 661603131, 1121700526]) =
      ![803489569, 1932988791, 903066557, 1526155341, 711307873, 1676775332, 1552225599, 328792795, 325960422, 1323389223, 443528880, 1896792903, 173408317, 1491959609, 254196865, 1813389237] := by decide
  have h7 : InternalRound (RCZero 6 0) (![803489569, 1932988791, 903066557, 1526155341, 711307873, 1676775332, 1552225599, 328792795, 325960422, 1323389223, 443528880, 1896792903, 173408317, 1491959609, 254196865, 1813389237]) =
      ![1957822648, 470786895, 343931218, 615887626, 201729246, 1207012364, 1903901089, 1461143695, 2008679621, 1110030385, 138801512, 65382932, 1356495145, 1355552254, 1214819791, 145923726] := by decide
  have h8 : InternalRound (RCZero 7 0) (![1957822648, 470786895, 343931218, 615887626, 201729246, 1207012364, 1903901089, 1461143695, 2008679621, 1110030385, 138801512, 65382932, 1356495145, 1355552254, 1214819791, 145923726]) =
      ![137372568, 1361112352, 1578187893, 1340610040, 490893504, 69864071, 1417182675, 1793289571, 303279057, 1187609156, 1492392366, 1404672432, 685411437, 644947723, 1120605826, 1012416650] := by decide
  have h9 : InternalRound (RCZero 8 0) (![137372568, 1361112352, 1578187893, 1340610040, 490893504, 69864071, 1417182675, 1793289571, 303279057, 1187609156, 1492392366, 1404672432, 685411437, 644947723, 1120605826, 1012416650]) =
      ![1555186101, 1411886942, 1193884455, 1386682908, 1964656701, 1168599726, 1108769928, 65149637, 618441387, 75564455, 1127881923, 963477364, 527050629, 351759646, 1574367343, 323715552] := by decide
  have h10 : InternalRound (RCZero 9 0) (![1555186101, 1411886942, 1193884455, 1386682908, 1964656701, 1168599726, 1108769928, 65149637, 618441387, 75564455, 1127881923, 963477364, 527050629, 351759646, 1574367343, 323715552]) =
      ![1636175985, 1327031176, 289647223, 1435344024, 1539536395, 493346561, 1170261273, 58189160, 558270851, 1140251425, 1596635404, 15663680, 204298770, 1237520735, 150928164, 1541480342] := by decide
  have h11 : InternalRound (RCZero 10 0) (![1636175985, 1327031176, 289647223, 1435344024, 1539536395, 493346561, 1170261273, 58189160, 558270851, 1140251425, 1596635404, 15663680, 204298770, 1237520735, 150928164, 1541480342]) =
      ![1951371874, 733278616, 1998807807, 1121091694, 1656208995, 1259994653, 615821598, 1117087759, 400609133, 1400319616, 1510876283, 1352994313, 1064082753, 900854843, 1677757355, 1818668048] := by decide
  have h12 : InternalRound (RCZero 11 0) (![1951371874, 733278616, 1998807807, 1121091694, 1656208995, 1259994653, 615821598, 1117087759, 400609133, 1400319616, 1510876283, 1352994313, 1064082753, 900854843, 1677757355, 1818668048]) =
      ![1502277067, 249121903, 1500192980, 1986944142, 685919721, 1556364446, 1102741134, 545152628, 462164286, 1649596966, 2003652440, 1868332072, 403594909, 1114112943, 1150918701, 959178551] := by decide
  have h13 : InternalRound (RCZero 12 0) (![1502277067, 249121903, 1500192980, 1986944142, 685919721, 1556364446, 1102741134, 545152628, 462164286, 1649596966, 2003652440, 1868332072, 403594909, 1114112943, 1150918701, 959178551]) =
      ![1087866375, 1424976436, 149708651, 1070567417, 623414538, 1918494617, 224784243, 1840102068, 1948171432, 686834419, 280284103, 1745271311, 285934634, 508626154, 1377545082, 431055049] := by decide
  have h14 : InternalRound (RCZero 13 0) (![1087866375, 1424976436, 149708651, 1070567417, 623414538, 1918494617, 224784243, 1840102068, 1948171432, 686834419, 280284103, 1745271311, 285934634, 508626154, 1377545082, 431055049]) =
      ![627054410, 1643739440, 518180306, 474500830, 1179547466, 715688061, 1372061017, 1215871938, 1952998017, 894239141, 782343349, 1609713541, 1965776346, 1834527474, 712587543, 1970172821] := by decide
  have h15 : InternalRound (RCZero 14 0) (![627054410, 1643739440, 518180306, 474500830, 1179547466, 715688061, 1372061017, 1215871938, 1952998017, 894239141, 782343349, 1609713541, 1965776346, 1834527474, 712587543, 1970172821]) =
      ![1556703168, 1532144274, 924765446, 1786408154, 1271720878, 1273084205, 1515773037, 1200103868, 227176806, 1314575857, 1821547164, 1383547440, 1279785363, 604521166, 947652111, 1126380576] := by decide
  have h16 : InternalRound (RCZero 15 0) (![1556703168, 1532144274, 924765446, 1786408154, 1271720878, 1273084205, 1515773037, 1200103868, 227176806, 1314575857, 1821547164, 1383547440, 1279785363, 604521166, 947652111, 1126380576]) =
      ![1908744719, 1816251588, 120372285, 1389942167, 391544733, 520795384, 470462394, 586649868, 1177015588, 600117899, 774133859, 1710743411, 12301596, 85720420, 296809250, 318691989] := by decide
  have h17 : InternalRound (RCZero 16 0) (![1908744719, 1816251588, 120372285, 1389942167, 391544733, 520795384, 470462394, 586649868, 1177015588, 600117899, 774133859, 1710743411, 12301596, 85720420, 296809250, 318691989]) =
      ![349012607, 1877684633, 302177615, 1594669871, 1180524988, 341095505, 1023368206, 1368238019, 1737750155, 683405193, 1817848337, 321334639, 1095910601, 864003111, 1510842398, 150196370] := by decide
  have h18 : ExternalRound (RCZero 17) (![349012607, 1877684633, 302177615, 1594669871, 1180524988, 341095505, 1023368206, 1368238019, 1737750155, 683405193, 1817848337, 321334639, 1095910601, 864003111, 1510842398, 150196370]) =
      ![1811587646, 605233368, 1678505714, 43964153, 782594497, 1140589823, 130275049, 1557160279, 598959780, 857952479, 491248921, 158104754, 1707504863, 631818288, 1084875185, 101564392] := by decide
  have h19 : ExternalRound (RCZero 18) (![1811587646, 605233368, 1678505714, 43964153, 782594497, 1140589823, 130275049, 1557160279, 598959780, 857952479, 491248921, 158104754, 1707504863, 631818288, 1084875185, 101564392]) =
      ![610507237, 1764174218, 672380046, 294041500, 1132157886, 1951124642, 975444291, 1289655631, 1542487749, 1929269277, 1838623655, 1360360088, 1064106012, 1875336372, 1099122369, 227062565] := by decide
  have h20 : ExternalRound (RCZero 19) (![610507237, 1764174218, 672380046, 294041500, 1132157886, 1951124642, 975444291, 1289655631, 1542487749, 1929269277, 1838623655, 1360360088, 1064106012, 1875336372, 1099122369, 227062565]) =
      ![1782153540, 337038216, 141059406, 1058058354, 971038765, 1835416859, 1310180296, 1387821100, 845659622, 1871184744, 324416138, 1322594259, 783653723, 784389001, 142503984, 1544356415] := by decide
  have h21 : ExternalRound (RCZero 20) (![1782153540, 337038216, 141059406, 1058058354, 971038765, 1835416859, 1310180296, 1387821100, 845659622, 1871184744, 324416138, 1322594259, 783653723, 784389001, 142503984, 1544356415]) =
      ![1363749488, 318277635, 944046745, 277612888, 64736600, 1018472304, 31427269, 1357276207, 622564047, 123884952, 562079784, 1552977394, 357736896, 380784081, 265465820, 1766199799] := by decide
  show ExternalRound (RCZero 20) (ExternalRound (RCZero 19) (ExternalRound (RCZero 18) (ExternalRound (RCZero 17) (InternalRound (RCZero 16 0) (InternalRound (RCZero 15 0) (InternalRound (RCZero 14 0) (InternalRound (RCZero 13 0) (InternalRound (RCZero 12 0) (InternalRound (RCZero 11 0) (InternalRound (RCZero 10 0) (InternalRound (RCZero 9 0) (InternalRound (RCZero 8 0) (InternalRound (RCZero 7 0) (InternalRound (RCZero 6 0) (InternalRound (RCZero 5 0) (InternalRound (RCZero 4 0) (ExternalRound (RCZero 3) (ExternalRound (RCZero 2) (ExternalRound (RCZero 1) (ExternalRound (RCZero 0) (ExternalLinearLayer KatInput))))))))))))))))))))) = _
  rw [h0, h1, h2, h3, h4, h5, h6, h7, h8, h9, h10, h11, h12, h13, h14, h15, h16, h17, h18, h19, h20, h21]
theorem foldlAddF (l : List Nat) : ∀ a : Nat, l.foldl AddF (a % MODULUS) = (a + l.sum) % MODULUS := by
  induction l with
  | nil => intro a; simp
  | cons x t ih =>
    intro a
    have h1 : AddF (a % MODULUS) x = (a + x) % MODULUS := by
      simp [AddF, Nat.mod_add_mod]
    simp only [List.foldl_cons, h1, List.sum_cons]
    rw [ih (a + x)]
    congr 1
    omega

theorem DiffusionSumEq (s : StateB) : DiffusionSum s = (∑ j, s j) % MODULUS := by
  show (List.ofFn s).foldl AddF (0 % MODULUS) = _
  rw [foldlAddF, List.sum_ofFn]
  simp

theorem DiffusionFormula (s : StateB) (i : Fin 16) :
    DiffusionPermuteMut s i = (s i * internalLinearLayer i + ∑ j, s j) % MODULUS := by
  unfold DiffusionPermuteMut
  rw [DiffusionSumEq]
  unfold AddF MulF
  conv_rhs => rw [Nat.add_mod]

theorem SubFEqZeroIff (a b : Nat) (ha : a < MODULUS) (hb : b < MODULUS) :
    SubF a b = 0 ↔ a = b := by
  unfold SubF
  unfold MODULUS at ha hb ⊢
  omega

theorem IsZeroSubF (a b : Nat) (ha : a < MODULUS) (hb : b < MODULUS) :
    IsZeroF (SubF a b) = if a = b then 1 else 0 := by
  unfold IsZeroF
  by_cases h : a = b
  · rw [if_pos ((SubFEqZeroIff a b ha hb).mpr h), if_pos h]
  · rw [if_neg (fun hz => h ((SubFEqZeroIff a b ha hb).mp hz)), if_neg h]

theorem extNeIff (a b : ExtB) :
    a ≠ b ↔ (a 0 ≠ b 0 ∨ a 1 ≠ b 1 ∨ a 2 ≠ b 2 ∨ a 3 ≠ b 3) := by
  constructor
  · intro h
    by_contra hc
    push_neg at hc
    obtain ⟨h0, h1, h2, h3⟩ := hc
    apply h
    funext i
    fin_cases i <;> assumption
  · rintro (h | h | h | h) <;> exact fun he => h (by rw [he])

theorem BitValDiv (y i : Nat) : BitVal y i = y / 2 ^ i % 2 := by
  unfold BitVal
  rw [Nat.testBit_to_div_mod]
  rcases Nat.mod_two_eq_zero_or_one (y / 2 ^ i) with h | h <;> simp [h]

theorem SumBitVal (y : Nat) : ∀ n, ∑ i in Finset.range n, BitVal y i * 2 ^ i = y % 2 ^ n := by
  intro n
  induction n with
  | zero => simp [Nat.mod_one]
  | succ n ih =>
    rw [Finset.sum_range_succ, ih, BitValDiv, pow_succ, Nat.mod_mul]
    ring

theorem SplitChunkEq (x k : Nat) : SplitChunk x k = x / 2 ^ (32 * k) % 2 ^ 32 := by
  unfold SplitChunk
  have hb : ∀ i, BitVal x (32 * k + i) = BitVal (x / 2 ^ (32 * k)) i := by
    intro i
    unfold BitVal
    rw [← Nat.shiftRight_eq_div_pow, Nat.testBit_shiftRight]
  calc ∑ i in Finset.range 32, BitVal x (32 * k + i) * 2 ^ i
      = ∑ i in Finset.range 32, BitVal (x / 2 ^ (32 * k)) i * 2 ^ i :=
        Finset.sum_congr rfl (fun i _ => by rw [hb])
    _ = x / 2 ^ (32 * k) % 2 ^ 32 := SumBitVal _ 32

/-- C1: the source's `PermuteMut` does not apply the full Poseidon2-BabyBear
transition sequence: because of the `break` after round 0 and the commented-out
internal and second-external phases, its output differs from the full §4.3
sequence (modelled by `PermuteMutFull`), here exhibited on the unit state with
the all-zero round-constant table. -/
theorem permuteMutEarlyExitDiverges :
    PermuteMut RCZero UnitState ≠ PermuteMutFull RCZero UnitState := by
  rw [PermuteMutFullUnitEval]
  decide

/-- C2: on the known-answer input of `TestPoseidonBabyBear2`, the implemented
truncated `PermuteMut` (with the modelled all-zero constant table) does not
produce the expected known-answer output, and differs from the full §4.3
sequence on the same input. -/
theorem permuteMutKatFails :
    PermuteMut RCZero KatInput ≠ KatExpected ∧
    PermuteMut RCZero KatInput ≠ PermuteMutFull RCZero KatInput := by
  constructor
  · decide
  · rw [PermuteMutFullKatEval]
    decide

/-- C3: `MulExtension` never reads its operands — the loop multiplies entries
of the zero-initialised accumulator — so it returns the zero tuple for all
inputs, while the spec's convolution (`MulExtensionSpec`) maps the identity
pair to the identity. -/
theorem mulExtensionIgnoresOperands :
    (∀ a b : ExtB, MulExtension a b = ZeroExt) ∧
    MulExtensionSpec OneExt OneExt = OneExt ∧ ZeroExt ≠ OneExt := by
  refine ⟨?_, by decide, by decide⟩
  intro a b
  funext i
  fin_cases i <;> rfl

/-- C4: `InvExtension` is a stub returning the zero tuple, so
`MulExtension (1,0,0,0) (InvExtension (1,0,0,0))` is the zero tuple, not the
identity the claim requires. -/
theorem invExtensionIsStub :
    InvExtension OneExt = ZeroExt ∧
    MulExtension OneExt (InvExtension OneExt) = ZeroExt ∧ ZeroExt ≠ OneExt := by
  refine ⟨by decide, by decide, by decide⟩

/-- C5 counterexample: the last entry of the source's `internalLinearLayer`
diagonal is 32768 = 2^15, not the 2^14 = 16384 that "successive powers of two"
(`DiagClaimed`) would put at position 15. -/
theorem internalDiagonalSkipsAPower :
    internalLinearLayer 15 = 32768 ∧ DiagClaimed 15 = 16384 ∧
    internalLinearLayer ≠ DiagClaimed := by
  refine ⟨by decide, by decide, by decide⟩

/-- C5 (amended): `diffusionPermuteMut` replaces `state[i]` with
`state[i] * diag[i] + total`, where `total` is the sum of all 16 elements and
the diagonal is p − 2 followed by the powers of two 2^0 … 2^13 and then 2^15
(2^14 is skipped). -/
theorem diffusionPermuteMutFormula :
    ∀ (s : StateB) (i : Fin 16),
      DiffusionPermuteMut s i = (s i * internalLinearLayer i + ∑ j, s j) % MODULUS ∧
      internalLinearLayer i =
        (if i.val = 0 then MODULUS - 2 else if i.val = 15 then 2 ^ 15 else 2 ^ (i.val - 1)) := by
  intro s i
  refine ⟨DiffusionFormula s i, ?_⟩
  revert i
  decide

/-- C6 counterexample: `SplitIntoBabyBear` applied to 2^32 − 1 produces the
chunk 4294967295, which is not a canonical residue mod p. -/
theorem splitProducesNonCanonicalValue :
    SplitIntoBabyBear 4294967295 0 = 4294967295 ∧
    ¬ SplitIntoBabyBear 4294967295 0 < MODULUS := by
  refine ⟨by decide, by decide⟩

/-- C6 (amended): the arithmetic operations of the BabyBear chip (Add, Sub,
Mul, Neg, Inv, Select) produce canonical residues in [0, p) on canonical
inputs, but the chunks of `SplitIntoBabyBear` are only bounded by 2^32 and can
exceed p. -/
theorem chipOpsProduceCanonicalResidues :
    ∀ a b cond x k : Nat, a < MODULUS → b < MODULUS →
      AddF a b < MODULUS ∧ SubF a b < MODULUS ∧ MulF a b < MODULUS ∧
      NegF a < MODULUS ∧ InvF a < MODULUS ∧ SelectF cond a b < MODULUS ∧
      SplitChunk x k < 2 ^ 32 := by
  intro a b cond x k ha hb
  refine ⟨Nat.mod_lt _ (by decide), Nat.mod_lt _ (by decide), Nat.mod_lt _ (by decide),
    Nat.mod_lt _ (by decide), ZMod.val_lt _, ?_, ?_⟩
  · unfold SelectF
    split <;> assumption
  · rw [SplitChunkEq]
    exact Nat.mod_lt _ (by norm_num)

/-- Witness for C6 (amended) at a = 5, b = 7, cond = 1, x = 99, k = 1. -/
theorem chipOpsProduceCanonicalResiduesWitness :
    (5 : Nat) < MODULUS ∧ (7 : Nat) < MODULUS ∧
      (AddF 5 7 < MODULUS ∧ SubF 5 7 < MODULUS ∧ MulF 5 7 < MODULUS ∧
        NegF 5 < MODULUS ∧ InvF 5 < MODULUS ∧ SelectF 1 5 7 < MODULUS ∧
        SplitChunk 99 1 < 2 ^ 32) :=
  ⟨by decide, by decide, chipOpsProduceCanonicalResidues 5 7 1 99 1 (by decide) (by decide)⟩

/-- C7: for x < 2^96, the three chunks of `SplitIntoBabyBear` recompose to x
under the weights 1, 2^32, 2^64. -/
theorem splitIntoBabyBearRoundTrip :
    ∀ x : Nat, x < 2 ^ 96 →
      SplitIntoBabyBear x 0 + SplitIntoBabyBear x 1 * 2 ^ 32 +
        SplitIntoBabyBear x 2 * 2 ^ 64 = x := by
  intro x hx
  show SplitChunk x 0 + SplitChunk x 1 * 2 ^ 32 + SplitChunk x 2 * 2 ^ 64 = x
  rw [SplitChunkEq, SplitChunkEq, SplitChunkEq]
  norm_num
  omega

/-- Witness for C7 at x = 2^96 − 1. -/
theorem splitIntoBabyBearRoundTripWitness :
    (79228162514264337593543950335 : Nat) < 2 ^ 96 ∧
      SplitIntoBabyBear 79228162514264337593543950335 0 +
        SplitIntoBabyBear 79228162514264337593543950335 1 * 2 ^ 32 +
        SplitIntoBabyBear 79228162514264337593543950335 2 * 2 ^ 64 =
        79228162514264337593543950335 :=
  ⟨by decide, splitIntoBabyBearRoundTrip 79228162514264337593543950335 (by decide)⟩

/-- C8: for canonical nonzero a, `Mul(a, Inv(a))` is exactly 1, and the
constraint laid down by `Inv(0)` (that the result multiplied by 0 equal 1) is
satisfied by no value r, making the circuit unsatisfiable. -/
theorem invProducesInverse :
    ∀ a r : Nat, a < MODULUS → a ≠ 0 →
      MulF a (InvF a) = 1 ∧ ¬ InvConstraint 0 r := by
  intro a r ha h0
  constructor
  · have hnd : ¬ MODULUS ∣ a := fun hd => h0 (Nat.eq_zero_of_dvd_of_lt hd ha)
    have hco : Nat.Coprime a MODULUS :=
      Nat.Coprime.symm ((Nat.Prime.coprime_iff_not_dvd babyBearPrime).mpr hnd)
    have hunit : IsUnit (a : ZMod MODULUS) := (ZMod.isUnit_iff_coprime a MODULUS).mpr hco
    have hmul : (a : ZMod MODULUS) * (a : ZMod MODULUS)⁻¹ = 1 := ZMod.mul_inv_of_unit _ hunit
    have hval : (a : ZMod MODULUS).val = a := by
      rw [ZMod.val_natCast]
      exact Nat.mod_eq_of_lt ha
    unfold MulF InvF
    calc a * ((a : ZMod MODULUS)⁻¹).val % MODULUS
        = (a : ZMod MODULUS).val * ((a : ZMod MODULUS)⁻¹).val % MODULUS := by rw [hval]
      _ = ((a : ZMod MODULUS) * (a : ZMod MODULUS)⁻¹).val := (ZMod.val_mul _ _).symm
      _ = (1 : ZMod MODULUS).val := by rw [hmul]
      _ = 1 := by decide
  · unfold InvConstraint MulF
    simp

/-- Witness for C8 at a = 2, r = 7. -/
theorem invProducesInverseWitness :
    (2 : Nat) < MODULUS ∧ (2 : Nat) ≠ 0 ∧
      (MulF 2 (InvF 2) = 1 ∧ ¬ InvConstraint 0 7) :=
  ⟨by decide, by decide, invProducesInverse 2 7 (by decide) (by decide)⟩

/-- C9: for canonical coefficient tuples, the constraint of
`AssertNeExtension` is satisfiable exactly when the two extension elements
differ in at least one coefficient, and unsatisfiable exactly when all four
coefficient-wise differences are zero. -/
theorem assertNeExtensionCorrect :
    ∀ a b : ExtB, CanonicalExt a → CanonicalExt b →
      (AssertNeExtensionHolds a b ↔ a ≠ b) := by
  intro a b ha hb
  unfold AssertNeExtensionHolds AndNative
  rw [IsZeroSubF _ _ (ha 0) (hb 0), IsZeroSubF _ _ (ha 1) (hb 1),
    IsZeroSubF _ _ (ha 2) (hb 2), IsZeroSubF _ _ (ha 3) (hb 3), extNeIff]
  by_cases h0 : a 0 = b 0 <;> by_cases h1 : a 1 = b 1 <;>
    by_cases h2 : a 2 = b 2 <;> by_cases h3 : a 3 = b 3 <;>
    simp [h0, h1, h2, h3]

/-- Witness for C9 at a = (1,0,0,0), b = (0,0,0,0). -/
theorem assertNeExtensionCorrectWitness :
    CanonicalExt OneExt ∧ CanonicalExt ZeroExt ∧
      (AssertNeExtensionHolds OneExt ZeroExt ↔ OneExt ≠ ZeroExt) :=
  ⟨by decide, by decide, assertNeExtensionCorrect OneExt ZeroExt (by decide) (by decide)⟩

/-- C10: for every assignment of the circuit inputs X and Y, the assertion
emitted by `Circuit.Define` holds — the loop leaves felt0 = 144, the twelfth
Fibonacci number — and the subsequent IsZero/Select operations are well
defined, leaving felt0 = 466. -/
theorem circuitDefineSatisfiable :
    ∀ X Y : Nat, CircuitAssertHolds X Y ∧ CircuitFinalFelt0 X Y = 466 := by
  intro X Y
  constructor
  · show (CircuitLoop 12).1 = 144
    decide
  · have h : CircuitFinalFelt0 X Y = CircuitFinalFelt0 0 0 := rfl
    rw [h]
    decide
